import Mathlib

/-!
Verification of the seccomp BPF filter generator in
src/seccomp/generate_bpf.py.

The generator emits, for each of two target architectures (x86_64 and
aarch64), a fixed classic-BPF program that kills the process on an
unexpected architecture, denies the x32 compatibility ABI (x86_64 only),
and denies the two terminal-injection ioctl request codes TIOCSTI and
TIOCLINUX, allowing everything else.

The definitions below embed the Python source: the numeric constants, the
two instruction constructors bpf_stmt and bpf_jump, the two filter
generation functions, and the byte-level encoding corresponding to
struct.pack with format <HBBI.  A small evaluation semantics for the
classic-BPF instruction subset used by the filters is modelled from the
spec (the repository contains only the generator, not the kernel
evaluator).
-/

namespace GenerateBpf

/-! ## Constants from the source (generate_bpf.py, lines 15-52) -/

def SECCOMP_RET_KILL_PROCESS : Nat := 0x80000000
def SECCOMP_RET_ERRNO : Nat := 0x00050000
def SECCOMP_RET_ALLOW : Nat := 0x7FFF0000
def SECCOMP_RET_DATA : Nat := 0x0000FFFF

def BPF_LD : Nat := 0x00
def BPF_JMP : Nat := 0x05
def BPF_RET : Nat := 0x06
def BPF_W : Nat := 0x00
def BPF_ABS : Nat := 0x20
def BPF_JEQ : Nat := 0x10
def BPF_JSET : Nat := 0x40
def BPF_K : Nat := 0x00

def AUDIT_ARCH_X86_64 : Nat := 0xC000003E
def AUDIT_ARCH_AARCH64 : Nat := 0xC00000B7

def NR_IOCTL_X86_64 : Nat := 16
def NR_IOCTL_AARCH64 : Nat := 29

def X32_SYSCALL_BIT : Nat := 0x40000000

def TIOCSTI : Nat := 0x5412
def TIOCLINUX : Nat := 0x541C

def OFF_NR : Nat := 0
def OFF_ARCH : Nat := 4
def OFF_ARG1_LO : Nat := 24

def EPERM : Nat := 1

/-- RET_ERRNO from the source: SECCOMP_RET_ERRNO bitwise-or (e masked to
the low 16 bits by SECCOMP_RET_DATA). -/
def RET_ERRNO (e : Nat) : Nat :=
  SECCOMP_RET_ERRNO ||| (e &&& SECCOMP_RET_DATA)

/-! ## Instructions

A classic-BPF instruction record: 16-bit code, two 8-bit jump offsets and
a 32-bit operand, exactly the fields packed by struct.pack with format
<HBBI in the source. -/

structure BPFInsn where
  code : Nat
  jt : Nat
  jf : Nat
  k : Nat
  deriving Repr, DecidableEq

/-- bpf_stmt from the source: a statement instruction, both jump offsets
zero. -/
def bpf_stmt (code k : Nat) : BPFInsn :=
  { code := code, jt := 0, jf := 0, k := k }

/-- bpf_jump from the source: a conditional jump instruction. -/
def bpf_jump (code k jt jf : Nat) : BPFInsn :=
  { code := code, jt := jt, jf := jf, k := k }

/-! ## Byte-level encoding

struct.pack with format <HBBI: a little-endian 16-bit code, two single
bytes jt and jf, and a little-endian 32-bit operand k - 8 bytes total. -/

def u16le (n : Nat) : List Nat :=
  [n % 256, n / 256 % 256]

def u32le (n : Nat) : List Nat :=
  [n % 256, n / 256 % 256, n / 65536 % 256, n / 16777216 % 256]

/-- The 8-byte encoding of one instruction, format <HBBI. -/
def packInsn (i : BPFInsn) : List Nat :=
  u16le i.code ++ [i.jt % 256, i.jf % 256] ++ u32le i.k

/-- Decoding an 8-byte record back into its little-endian fields. -/
def unpackInsn (bs : List Nat) : Option BPFInsn :=
  match bs with
  | [b0, b1, b2, b3, b4, b5, b6, b7] =>
      some { code := b0 + 256 * b1, jt := b2, jf := b3,
             k := b4 + 256 * b5 + 65536 * b6 + 16777216 * b7 }
  | _ => none

/-! ## The two filters (generate_x86_64_filter, generate_aarch64_filter)

Each mirrors the instruction list built by the Python function, in the
same order and with the same arguments. -/

/-- generate_x86_64_filter from the source: the 13-instruction filter with
x32 ABI rejection. -/
def generate_x86_64_filter : List BPFInsn :=
  [ bpf_stmt (BPF_LD ||| BPF_W ||| BPF_ABS) OFF_ARCH,
    bpf_jump (BPF_JMP ||| BPF_JEQ ||| BPF_K) AUDIT_ARCH_X86_64 1 0,
    bpf_stmt (BPF_RET ||| BPF_K) SECCOMP_RET_KILL_PROCESS,
    bpf_stmt (BPF_LD ||| BPF_W ||| BPF_ABS) OFF_NR,
    bpf_jump (BPF_JMP ||| BPF_JSET ||| BPF_K) X32_SYSCALL_BIT 0 1,
    bpf_stmt (BPF_RET ||| BPF_K) (RET_ERRNO EPERM),
    bpf_jump (BPF_JMP ||| BPF_JEQ ||| BPF_K) NR_IOCTL_X86_64 1 0,
    bpf_stmt (BPF_RET ||| BPF_K) SECCOMP_RET_ALLOW,
    bpf_stmt (BPF_LD ||| BPF_W ||| BPF_ABS) OFF_ARG1_LO,
    bpf_jump (BPF_JMP ||| BPF_JEQ ||| BPF_K) TIOCSTI 2 0,
    bpf_jump (BPF_JMP ||| BPF_JEQ ||| BPF_K) TIOCLINUX 1 0,
    bpf_stmt (BPF_RET ||| BPF_K) SECCOMP_RET_ALLOW,
    bpf_stmt (BPF_RET ||| BPF_K) (RET_ERRNO EPERM) ]

/-- generate_aarch64_filter from the source: the 11-instruction filter
without x32 ABI rejection. -/
def generate_aarch64_filter : List BPFInsn :=
  [ bpf_stmt (BPF_LD ||| BPF_W ||| BPF_ABS) OFF_ARCH,
    bpf_jump (BPF_JMP ||| BPF_JEQ ||| BPF_K) AUDIT_ARCH_AARCH64 1 0,
    bpf_stmt (BPF_RET ||| BPF_K) SECCOMP_RET_KILL_PROCESS,
    bpf_stmt (BPF_LD ||| BPF_W ||| BPF_ABS) OFF_NR,
    bpf_jump (BPF_JMP ||| BPF_JEQ ||| BPF_K) NR_IOCTL_AARCH64 1 0,
    bpf_stmt (BPF_RET ||| BPF_K) SECCOMP_RET_ALLOW,
    bpf_stmt (BPF_LD ||| BPF_W ||| BPF_ABS) OFF_ARG1_LO,
    bpf_jump (BPF_JMP ||| BPF_JEQ ||| BPF_K) TIOCSTI 2 0,
    bpf_jump (BPF_JMP ||| BPF_JEQ ||| BPF_K) TIOCLINUX 1 0,
    bpf_stmt (BPF_RET ||| BPF_K) SECCOMP_RET_ALLOW,
    bpf_stmt (BPF_RET ||| BPF_K) (RET_ERRNO EPERM) ]

/-- The two supported target architectures. -/
inductive Arch where
  | x86_64
  | aarch64
  deriving Repr, DecidableEq

/-- Filter generation as a function of the target architecture. -/
def filterFor : Arch → List BPFInsn
  | Arch.x86_64 => generate_x86_64_filter
  | Arch.aarch64 => generate_aarch64_filter

/-- The expected architecture identifier constant for a target. -/
def archConst : Arch → Nat
  | Arch.x86_64 => AUDIT_ARCH_X86_64
  | Arch.aarch64 => AUDIT_ARCH_AARCH64

/-- The ioctl syscall number for a target. -/
def ioctlNr : Arch → Nat
  | Arch.x86_64 => NR_IOCTL_X86_64
  | Arch.aarch64 => NR_IOCTL_AARCH64

/-- The emitted byte sequence for a target: the concatenation of the
8-byte encodings of the instructions, exactly the bytes the Python
function returns. -/
def filterBytes (a : Arch) : List Nat :=
  ((filterFor a).map packInsn).flatten

/-! ## Evaluation semantics

Modelled from the spec: the kernel presents a filter evaluation context
(architecture, syscall number, arguments) and executes the instruction
sequence, with jump offsets counting instructions to skip forward and
return instructions ending evaluation with a terminal action.  The
repository contains only the generator, so the evaluator for the
instruction subset the filters use (absolute 32-bit loads, JEQ and JSET
conditional jumps against an immediate, and RET of an immediate) is
defined here from the spec's description. -/

/-- The filter evaluation context: the fields of struct seccomp_data the
filters inspect - syscall number, architecture, and the low 32 bits of the
second argument. -/
structure SeccompData where
  nr : Nat
  arch : Nat
  arg1_lo : Nat

/-- Modelled from the spec: the 32-bit word of the evaluation context at a
given absolute offset.  The filters only load offsets OFF_NR, OFF_ARCH and
OFF_ARG1_LO; loads reduce modulo 2^32 since the accumulator is a 32-bit
register. -/
def loadWord (ctx : SeccompData) (off : Nat) : Nat :=
  (if off = OFF_NR then ctx.nr
   else if off = OFF_ARCH then ctx.arch
   else if off = OFF_ARG1_LO then ctx.arg1_lo
   else 0) % 2 ^ 32

/-- Modelled from the spec: one fuel-bounded evaluator step.  The program
counter starts at 0 and the accumulator at 0; a load replaces the
accumulator, a conditional jump advances the program counter by 1 plus the
taken offset, and a return ends evaluation with its operand.  An
instruction outside the sequence or outside the encodable subset yields
none. -/
def runBPF (prog : List BPFInsn) (ctx : SeccompData) :
    Nat → Nat → Nat → Option Nat
  | 0, _, _ => none
  | fuel + 1, pc, acc =>
    match prog.get? pc with
    | none => none
    | some i =>
      if i.code = BPF_LD ||| BPF_W ||| BPF_ABS then
        runBPF prog ctx fuel (pc + 1) (loadWord ctx i.k)
      else if i.code = BPF_JMP ||| BPF_JEQ ||| BPF_K then
        runBPF prog ctx fuel
          (if acc = i.k then pc + 1 + i.jt else pc + 1 + i.jf) acc
      else if i.code = BPF_JMP ||| BPF_JSET ||| BPF_K then
        runBPF prog ctx fuel
          (if acc &&& i.k ≠ 0 then pc + 1 + i.jt else pc + 1 + i.jf) acc
      else if i.code = BPF_RET ||| BPF_K then
        some i.k
      else none

/-- Run a filter on a context from the initial state, with enough fuel to
execute every instruction of a forward-jumping program once. -/
def runFilter (prog : List BPFInsn) (ctx : SeccompData) : Option Nat :=
  runBPF prog ctx (prog.length + 1) 0 0

/-! ## Stepping lemmas for the evaluator -/

theorem runBPF_load {prog : List BPFInsn} {ctx : SeccompData}
    {pc acc off fuel fuel' : Nat} (hf : fuel = fuel' + 1)
    (h : prog.get? pc = some (bpf_stmt (BPF_LD ||| BPF_W ||| BPF_ABS) off)) :
    runBPF prog ctx fuel pc acc = runBPF prog ctx fuel' (pc + 1) (loadWord ctx off) := by
  subst hf
  simp only [runBPF]
  rw [h]
  rfl

theorem runBPF_jeq {prog : List BPFInsn} {ctx : SeccompData}
    {pc acc k jt jf fuel fuel' : Nat} (hf : fuel = fuel' + 1)
    (h : prog.get? pc = some (bpf_jump (BPF_JMP ||| BPF_JEQ ||| BPF_K) k jt jf)) :
    runBPF prog ctx fuel pc acc =
      runBPF prog ctx fuel' (if acc = k then pc + 1 + jt else pc + 1 + jf) acc := by
  subst hf
  simp only [runBPF]
  rw [h]
  rfl

theorem runBPF_jset {prog : List BPFInsn} {ctx : SeccompData}
    {pc acc k jt jf fuel fuel' : Nat} (hf : fuel = fuel' + 1)
    (h : prog.get? pc = some (bpf_jump (BPF_JMP ||| BPF_JSET ||| BPF_K) k jt jf)) :
    runBPF prog ctx fuel pc acc =
      runBPF prog ctx fuel' (if acc &&& k ≠ 0 then pc + 1 + jt else pc + 1 + jf) acc := by
  subst hf
  simp only [runBPF]
  rw [h]
  rfl

theorem runBPF_ret {prog : List BPFInsn} {ctx : SeccompData}
    {pc acc k fuel fuel' : Nat} (hf : fuel = fuel' + 1)
    (h : prog.get? pc = some (bpf_stmt (BPF_RET ||| BPF_K) k)) :
    runBPF prog ctx fuel pc acc = some k := by
  subst hf
  simp only [runBPF]
  rw [h]
  rfl

/-! ## Characterization of the two filters

Each filter is equivalent to the decision tree of the policy: kill on the
wrong architecture, deny the x32 ABI (x86_64 only), allow non-ioctl
syscalls, deny the two blocked ioctl request codes, allow everything
else. -/

theorem generate_x86_64_filter_spec (ctx : SeccompData) :
    runFilter generate_x86_64_filter ctx =
      if ctx.arch % 2 ^ 32 = AUDIT_ARCH_X86_64 then
        if (ctx.nr % 2 ^ 32) &&& X32_SYSCALL_BIT ≠ 0 then some (RET_ERRNO EPERM)
        else if ctx.nr % 2 ^ 32 = NR_IOCTL_X86_64 then
          if ctx.arg1_lo % 2 ^ 32 = TIOCSTI ∨ ctx.arg1_lo % 2 ^ 32 = TIOCLINUX then
            some (RET_ERRNO EPERM)
          else some SECCOMP_RET_ALLOW
        else some SECCOMP_RET_ALLOW
      else some SECCOMP_RET_KILL_PROCESS := by
  rw [show runFilter generate_x86_64_filter ctx = runBPF generate_x86_64_filter ctx 14 0 0 from rfl]
  rw [runBPF_load (show (14 : Nat) = 13 + 1 from rfl)
    (show generate_x86_64_filter.get? 0 =
      some (bpf_stmt (BPF_LD ||| BPF_W ||| BPF_ABS) OFF_ARCH) from rfl)]
  rw [show loadWord ctx OFF_ARCH = ctx.arch % 2 ^ 32 from rfl]
  rw [runBPF_jeq (show (13 : Nat) = 12 + 1 from rfl)
    (show generate_x86_64_filter.get? (0 + 1) =
      some (bpf_jump (BPF_JMP ||| BPF_JEQ ||| BPF_K) AUDIT_ARCH_X86_64 1 0) from rfl)]
  by_cases h1 : ctx.arch % 2 ^ 32 = AUDIT_ARCH_X86_64
  case neg =>
    rw [if_neg h1, if_neg h1]
    rw [runBPF_ret (show (12 : Nat) = 11 + 1 from rfl)
      (show generate_x86_64_filter.get? (0 + 1 + 1 + 0) =
        some (bpf_stmt (BPF_RET ||| BPF_K) SECCOMP_RET_KILL_PROCESS) from rfl)]
  case pos =>
  rw [if_pos h1, if_pos h1]
  rw [runBPF_load (show (12 : Nat) = 11 + 1 from rfl)
    (show generate_x86_64_filter.get? (0 + 1 + 1 + 1) =
      some (bpf_stmt (BPF_LD ||| BPF_W ||| BPF_ABS) OFF_NR) from rfl)]
  rw [show loadWord ctx OFF_NR = ctx.nr % 2 ^ 32 from rfl]
  rw [runBPF_jset (show (11 : Nat) = 10 + 1 from rfl)
    (show generate_x86_64_filter.get? (0 + 1 + 1 + 1 + 1) =
      some (bpf_jump (BPF_JMP ||| BPF_JSET ||| BPF_K) X32_SYSCALL_BIT 0 1) from rfl)]
  by_cases h2 : (ctx.nr % 2 ^ 32) &&& X32_SYSCALL_BIT ≠ 0
  case pos =>
    rw [if_pos h2, if_pos h2]
    rw [runBPF_ret (show (10 : Nat) = 9 + 1 from rfl)
      (show generate_x86_64_filter.get? (0 + 1 + 1 + 1 + 1 + 1 + 0) =
        some (bpf_stmt (BPF_RET ||| BPF_K) (RET_ERRNO EPERM)) from rfl)]
  case neg =>
  rw [if_neg h2, if_neg h2]
  rw [runBPF_jeq (show (10 : Nat) = 9 + 1 from rfl)
    (show generate_x86_64_filter.get? (0 + 1 + 1 + 1 + 1 + 1 + 1) =
      some (bpf_jump (BPF_JMP ||| BPF_JEQ ||| BPF_K) NR_IOCTL_X86_64 1 0) from rfl)]
  by_cases h3 : ctx.nr % 2 ^ 32 = NR_IOCTL_X86_64
  case neg =>
    rw [if_neg h3, if_neg h3]
    rw [runBPF_ret (show (9 : Nat) = 8 + 1 from rfl)
      (show generate_x86_64_filter.get? (0 + 1 + 1 + 1 + 1 + 1 + 1 + 1 + 0) =
        some (bpf_stmt (BPF_RET ||| BPF_K) SECCOMP_RET_ALLOW) from rfl)]
  case pos =>
  rw [if_pos h3, if_pos h3]
  rw [runBPF_load (show (9 : Nat) = 8 + 1 from rfl)
    (show generate_x86_64_filter.get? (0 + 1 + 1 + 1 + 1 + 1 + 1 + 1 + 1) =
      some (bpf_stmt (BPF_LD ||| BPF_W ||| BPF_ABS) OFF_ARG1_LO) from rfl)]
  rw [show loadWord ctx OFF_ARG1_LO = ctx.arg1_lo % 2 ^ 32 from rfl]
  rw [runBPF_jeq (show (8 : Nat) = 7 + 1 from rfl)
    (show generate_x86_64_filter.get? (0 + 1 + 1 + 1 + 1 + 1 + 1 + 1 + 1 + 1) =
      some (bpf_jump (BPF_JMP ||| BPF_JEQ ||| BPF_K) TIOCSTI 2 0) from rfl)]
  by_cases h4 : ctx.arg1_lo % 2 ^ 32 = TIOCSTI
  case pos =>
    rw [if_pos h4, if_pos (Or.inl h4)]
    rw [runBPF_ret (show (7 : Nat) = 6 + 1 from rfl)
      (show generate_x86_64_filter.get? (0 + 1 + 1 + 1 + 1 + 1 + 1 + 1 + 1 + 1 + 1 + 2) =
        some (bpf_stmt (BPF_RET ||| BPF_K) (RET_ERRNO EPERM)) from rfl)]
  case neg =>
  rw [if_neg h4]
  rw [runBPF_jeq (show (7 : Nat) = 6 + 1 from rfl)
    (show generate_x86_64_filter.get? (0 + 1 + 1 + 1 + 1 + 1 + 1 + 1 + 1 + 1 + 1 + 0) =
      some (bpf_jump (BPF_JMP ||| BPF_JEQ ||| BPF_K) TIOCLINUX 1 0) from rfl)]
  by_cases h5 : ctx.arg1_lo % 2 ^ 32 = TIOCLINUX
  case pos =>
    rw [if_pos h5, if_pos (Or.inr h5)]
    rw [runBPF_ret (show (6 : Nat) = 5 + 1 from rfl)
      (show generate_x86_64_filter.get? (0 + 1 + 1 + 1 + 1 + 1 + 1 + 1 + 1 + 1 + 1 + 0 + 1 + 1) =
        some (bpf_stmt (BPF_RET ||| BPF_K) (RET_ERRNO EPERM)) from rfl)]
  case neg =>
  rw [if_neg h5, if_neg (by rintro (h | h) <;> [exact h4 h; exact h5 h])]
  rw [runBPF_ret (show (6 : Nat) = 5 + 1 from rfl)
    (show generate_x86_64_filter.get? (0 + 1 + 1 + 1 + 1 + 1 + 1 + 1 + 1 + 1 + 1 + 0 + 1 + 0) =
      some (bpf_stmt (BPF_RET ||| BPF_K) SECCOMP_RET_ALLOW) from rfl)]

theorem generate_aarch64_filter_spec (ctx : SeccompData) :
    runFilter generate_aarch64_filter ctx =
      if ctx.arch % 2 ^ 32 = AUDIT_ARCH_AARCH64 then
        if ctx.nr % 2 ^ 32 = NR_IOCTL_AARCH64 then
          if ctx.arg1_lo % 2 ^ 32 = TIOCSTI ∨ ctx.arg1_lo % 2 ^ 32 = TIOCLINUX then
            some (RET_ERRNO EPERM)
          else some SECCOMP_RET_ALLOW
        else some SECCOMP_RET_ALLOW
      else some SECCOMP_RET_KILL_PROCESS := by
  rw [show runFilter generate_aarch64_filter ctx = runBPF generate_aarch64_filter ctx 12 0 0 from rfl]
  rw [runBPF_load (show (12 : Nat) = 11 + 1 from rfl)
    (show generate_aarch64_filter.get? 0 =
      some (bpf_stmt (BPF_LD ||| BPF_W ||| BPF_ABS) OFF_ARCH) from rfl)]
  rw [show loadWord ctx OFF_ARCH = ctx.arch % 2 ^ 32 from rfl]
  rw [runBPF_jeq (show (11 : Nat) = 10 + 1 from rfl)
    (show generate_aarch64_filter.get? (0 + 1) =
      some (bpf_jump (BPF_JMP ||| BPF_JEQ ||| BPF_K) AUDIT_ARCH_AARCH64 1 0) from rfl)]
  by_cases h1 : ctx.arch % 2 ^ 32 = AUDIT_ARCH_AARCH64
  case neg =>
    rw [if_neg h1, if_neg h1]
    rw [runBPF_ret (show (10 : Nat) = 9 + 1 from rfl)
      (show generate_aarch64_filter.get? (0 + 1 + 1 + 0) =
        some (bpf_stmt (BPF_RET ||| BPF_K) SECCOMP_RET_KILL_PROCESS) from rfl)]
  case pos =>
  rw [if_pos h1, if_pos h1]
  rw [runBPF_load (show (10 : Nat) = 9 + 1 from rfl)
    (show generate_aarch64_filter.get? (0 + 1 + 1 + 1) =
      some (bpf_stmt (BPF_LD ||| BPF_W ||| BPF_ABS) OFF_NR) from rfl)]
  rw [show loadWord ctx OFF_NR = ctx.nr % 2 ^ 32 from rfl]
  rw [runBPF_jeq (show (9 : Nat) = 8 + 1 from rfl)
    (show generate_aarch64_filter.get? (0 + 1 + 1 + 1 + 1) =
      some (bpf_jump (BPF_JMP ||| BPF_JEQ ||| BPF_K) NR_IOCTL_AARCH64 1 0) from rfl)]
  by_cases h2 : ctx.nr % 2 ^ 32 = NR_IOCTL_AARCH64
  case neg =>
    rw [if_neg h2, if_neg h2]
    rw [runBPF_ret (show (8 : Nat) = 7 + 1 from rfl)
      (show generate_aarch64_filter.get? (0 + 1 + 1 + 1 + 1 + 1 + 0) =
        some (bpf_stmt (BPF_RET ||| BPF_K) SECCOMP_RET_ALLOW) from rfl)]
  case pos =>
  rw [if_pos h2, if_pos h2]
  rw [runBPF_load (show (8 : Nat) = 7 + 1 from rfl)
    (show generate_aarch64_filter.get? (0 + 1 + 1 + 1 + 1 + 1 + 1) =
      some (bpf_stmt (BPF_LD ||| BPF_W ||| BPF_ABS) OFF_ARG1_LO) from rfl)]
  rw [show loadWord ctx OFF_ARG1_LO = ctx.arg1_lo % 2 ^ 32 from rfl]
  rw [runBPF_jeq (show (7 : Nat) = 6 + 1 from rfl)
    (show generate_aarch64_filter.get? (0 + 1 + 1 + 1 + 1 + 1 + 1 + 1) =
      some (bpf_jump (BPF_JMP ||| BPF_JEQ ||| BPF_K) TIOCSTI 2 0) from rfl)]
  by_cases h3 : ctx.arg1_lo % 2 ^ 32 = TIOCSTI
  case pos =>
    rw [if_pos h3, if_pos (Or.inl h3)]
    rw [runBPF_ret (show (6 : Nat) = 5 + 1 from rfl)
      (show generate_aarch64_filter.get? (0 + 1 + 1 + 1 + 1 + 1 + 1 + 1 + 1 + 2) =
        some (bpf_stmt (BPF_RET ||| BPF_K) (RET_ERRNO EPERM)) from rfl)]
  case neg =>
  rw [if_neg h3]
  rw [runBPF_jeq (show (6 : Nat) = 5 + 1 from rfl)
    (show generate_aarch64_filter.get? (0 + 1 + 1 + 1 + 1 + 1 + 1 + 1 + 1 + 0) =
      some (bpf_jump (BPF_JMP ||| BPF_JEQ ||| BPF_K) TIOCLINUX 1 0) from rfl)]
  by_cases h4 : ctx.arg1_lo % 2 ^ 32 = TIOCLINUX
  case pos =>
    rw [if_pos h4, if_pos (Or.inr h4)]
    rw [runBPF_ret (show (5 : Nat) = 4 + 1 from rfl)
      (show generate_aarch64_filter.get? (0 + 1 + 1 + 1 + 1 + 1 + 1 + 1 + 1 + 0 + 1 + 1) =
        some (bpf_stmt (BPF_RET ||| BPF_K) (RET_ERRNO EPERM)) from rfl)]
  case neg =>
  rw [if_neg h4, if_neg (by rintro (h | h) <;> [exact h3 h; exact h4 h])]
  rw [runBPF_ret (show (5 : Nat) = 4 + 1 from rfl)
    (show generate_aarch64_filter.get? (0 + 1 + 1 + 1 + 1 + 1 + 1 + 1 + 1 + 0 + 1 + 0) =
      some (bpf_stmt (BPF_RET ||| BPF_K) SECCOMP_RET_ALLOW) from rfl)]

/-! ## The claims -/

/-- Claim C1: for every supported architecture, simulating the emitted
sequence with the expected architecture constant, that architecture's
ioctl syscall number, and a low argument word equal to either blocked
request code (TIOCSTI or TIOCLINUX) terminates with the deny result,
whose value is SECCOMP_RET_ERRNO combined with EPERM, identical for both
blocked codes and both architectures. -/
theorem claim1_blocked_ioctl_denied (a : Arch) (cmd : Nat)
    (h : cmd = TIOCSTI ∨ cmd = TIOCLINUX) :
    runFilter (filterFor a) { nr := ioctlNr a, arch := archConst a, arg1_lo := cmd } =
      some (RET_ERRNO EPERM) := by
  cases a <;> rcases h with h | h <;> subst h <;> decide

/-- Witness for claim C1 at the x86_64 filter and the TIOCSTI request
code. -/
theorem claim1_blocked_ioctl_denied_w :
    runFilter (filterFor Arch.x86_64)
      { nr := ioctlNr Arch.x86_64, arch := archConst Arch.x86_64, arg1_lo := TIOCSTI } =
      some (RET_ERRNO EPERM) :=
  claim1_blocked_ioctl_denied Arch.x86_64 TIOCSTI (Or.inl rfl)

/-- Counterexample to claim C2 as stated: on x86_64 the syscall number
0x40000010 differs from the ioctl number 16, yet the filter does not
allow it - the x32 compatibility bit is set, so the filter denies with
EPERM. -/
theorem claim2_cx :
    (0x40000010 : Nat) ≠ ioctlNr Arch.x86_64 ∧
    runFilter (filterFor Arch.x86_64)
      { nr := 0x40000010, arch := archConst Arch.x86_64, arg1_lo := 0 } ≠
      some SECCOMP_RET_ALLOW := by
  constructor <;> decide

/-- Claim C2 (amended): for every supported architecture, simulating with
the expected architecture constant and a 32-bit syscall number other than
that architecture's ioctl number terminates with the allow result
regardless of argument contents, provided that on x86_64 the syscall
number does not have the x32 compatibility bit set (a number with that
bit set is denied with EPERM even though it differs from the ioctl
number). -/
theorem claim2_non_ioctl_allowed (a : Arch) (nr arg : Nat) (hnr : nr < 2 ^ 32)
    (hne : nr ≠ ioctlNr a)
    (hx32 : a = Arch.x86_64 → nr &&& X32_SYSCALL_BIT = 0) :
    runFilter (filterFor a) { nr := nr, arch := archConst a, arg1_lo := arg } =
      some SECCOMP_RET_ALLOW := by
  cases a
  case x86_64 =>
    have hx := hx32 rfl
    rw [show filterFor Arch.x86_64 = generate_x86_64_filter from rfl,
        generate_x86_64_filter_spec]
    have hioctl : nr ≠ NR_IOCTL_X86_64 := hne
    have hmod : nr % 4294967296 = nr := Nat.mod_eq_of_lt (by omega)
    simp [archConst, AUDIT_ARCH_X86_64, hmod, hx, hioctl]
  case aarch64 =>
    rw [show filterFor Arch.aarch64 = generate_aarch64_filter from rfl,
        generate_aarch64_filter_spec]
    have hioctl : nr ≠ NR_IOCTL_AARCH64 := hne
    have hmod : nr % 4294967296 = nr := Nat.mod_eq_of_lt (by omega)
    simp [archConst, AUDIT_ARCH_AARCH64, hmod, hioctl]

/-- Witness for the amended claim C2 at the aarch64 filter and syscall
number 5. -/
theorem claim2_non_ioctl_allowed_w :
    (5 : Nat) < 2 ^ 32 ∧ (5 : Nat) ≠ ioctlNr Arch.aarch64 ∧
    runFilter (filterFor Arch.aarch64)
      { nr := 5, arch := archConst Arch.aarch64, arg1_lo := 0 } =
      some SECCOMP_RET_ALLOW :=
  ⟨by decide, by decide,
   claim2_non_ioctl_allowed Arch.aarch64 5 0 (by decide) (by decide)
     (fun h => absurd h (by decide))⟩

/-- Claim C3: on the x86_64 variant, simulating with the expected
architecture constant and any 32-bit syscall number with the x32
compatibility bit set terminates with the deny (EPERM) result, for every
argument value and independent of whether the masked number would equal
the ioctl number. -/
theorem claim3_x32_denied (nr arg : Nat) (hnr : nr < 2 ^ 32)
    (hbit : nr &&& X32_SYSCALL_BIT ≠ 0) :
    runFilter generate_x86_64_filter
      { nr := nr, arch := AUDIT_ARCH_X86_64, arg1_lo := arg } =
      some (RET_ERRNO EPERM) := by
  rw [generate_x86_64_filter_spec]
  have hmod : nr % 4294967296 = nr := Nat.mod_eq_of_lt (by omega)
  simp [AUDIT_ARCH_X86_64, hmod, hbit]

/-- Witness for claim C3 at syscall number 0x40000010 (the ioctl number
with the x32 bit set). -/
theorem claim3_x32_denied_w :
    (0x40000010 : Nat) < 2 ^ 32 ∧ (0x40000010 : Nat) &&& X32_SYSCALL_BIT ≠ 0 ∧
    runFilter generate_x86_64_filter
      { nr := 0x40000010, arch := AUDIT_ARCH_X86_64, arg1_lo := 7 } =
      some (RET_ERRNO EPERM) :=
  ⟨by decide, by decide, claim3_x32_denied 0x40000010 7 (by decide) (by decide)⟩

/-- Claim C4: for every supported architecture, simulating with a 32-bit
architecture field different from the expected constant terminates with
the kill-process result, for every value of the other fields. -/
theorem claim4_wrong_arch_killed (a : Arch) (arch nr arg : Nat)
    (harch : arch < 2 ^ 32) (hne : arch ≠ archConst a) :
    runFilter (filterFor a) { nr := nr, arch := arch, arg1_lo := arg } =
      some SECCOMP_RET_KILL_PROCESS := by
  have hmod : arch % 4294967296 = arch := Nat.mod_eq_of_lt (by omega)
  cases a
  case x86_64 =>
    rw [show filterFor Arch.x86_64 = generate_x86_64_filter from rfl,
        generate_x86_64_filter_spec]
    have h : arch ≠ AUDIT_ARCH_X86_64 := hne
    simp [hmod, h]
  case aarch64 =>
    rw [show filterFor Arch.aarch64 = generate_aarch64_filter from rfl,
        generate_aarch64_filter_spec]
    have h : arch ≠ AUDIT_ARCH_AARCH64 := hne
    simp [hmod, h]

/-- Witness for claim C4: the aarch64 architecture constant presented to
the x86_64 filter is killed. -/
theorem claim4_wrong_arch_killed_w :
    AUDIT_ARCH_AARCH64 < 2 ^ 32 ∧ AUDIT_ARCH_AARCH64 ≠ archConst Arch.x86_64 ∧
    runFilter (filterFor Arch.x86_64)
      { nr := 16, arch := AUDIT_ARCH_AARCH64, arg1_lo := TIOCSTI } =
      some SECCOMP_RET_KILL_PROCESS :=
  ⟨by decide, by decide,
   claim4_wrong_arch_killed Arch.x86_64 AUDIT_ARCH_AARCH64 16 TIOCSTI
     (by decide) (by decide)⟩

/-- Claim C5: for every supported architecture, simulating with the
expected architecture constant, the ioctl syscall number, and a 32-bit
low argument word different from both blocked request codes terminates
with the allow result. -/
theorem claim5_other_cmd_allowed (a : Arch) (cmd : Nat) (hcmd : cmd < 2 ^ 32)
    (h1 : cmd ≠ TIOCSTI) (h2 : cmd ≠ TIOCLINUX) :
    runFilter (filterFor a) { nr := ioctlNr a, arch := archConst a, arg1_lo := cmd } =
      some SECCOMP_RET_ALLOW := by
  have hmod : cmd % 4294967296 = cmd := Nat.mod_eq_of_lt (by omega)
  have h1a : cmd ≠ 21522 := h1
  have h2a : cmd ≠ 21532 := h2
  have hx : (16 &&& 1073741824 : Nat) = 0 := by decide
  cases a
  case x86_64 =>
    rw [show filterFor Arch.x86_64 = generate_x86_64_filter from rfl,
        generate_x86_64_filter_spec]
    simp [archConst, ioctlNr, AUDIT_ARCH_X86_64, NR_IOCTL_X86_64, X32_SYSCALL_BIT,
      TIOCSTI, TIOCLINUX, hmod, hx, h1a, h2a]
  case aarch64 =>
    rw [show filterFor Arch.aarch64 = generate_aarch64_filter from rfl,
        generate_aarch64_filter_spec]
    simp [archConst, ioctlNr, AUDIT_ARCH_AARCH64, NR_IOCTL_AARCH64,
      TIOCSTI, TIOCLINUX, hmod, h1a, h2a]

/-- Witness for claim C5 at the x86_64 filter and the harmless request
code 0x5401 (TCGETS). -/
theorem claim5_other_cmd_allowed_w :
    (0x5401 : Nat) < 2 ^ 32 ∧ (0x5401 : Nat) ≠ TIOCSTI ∧ (0x5401 : Nat) ≠ TIOCLINUX ∧
    runFilter (filterFor Arch.x86_64)
      { nr := ioctlNr Arch.x86_64, arch := archConst Arch.x86_64, arg1_lo := 0x5401 } =
      some SECCOMP_RET_ALLOW :=
  ⟨by decide, by decide, by decide,
   claim5_other_cmd_allowed Arch.x86_64 0x5401 (by decide) (by decide) (by decide)⟩

/-- Claim C6: in each emitted sequence, every jump instruction at index i
with offsets jt and jf satisfies i + 1 + jt < length and
i + 1 + jf < length (the lengths being 13 and 11), and both targets are
strictly beyond i, so no jump target is out of bounds and all jumps are
forward. -/
theorem claim6_jumps_in_bounds (a : Arch) (i : Fin (filterFor a).length)
    (hj : ((filterFor a).get i).code &&& 7 = BPF_JMP) :
    i.val < i.val + 1 + ((filterFor a).get i).jt ∧
    i.val + 1 + ((filterFor a).get i).jt < (filterFor a).length ∧
    i.val < i.val + 1 + ((filterFor a).get i).jf ∧
    i.val + 1 + ((filterFor a).get i).jf < (filterFor a).length := by
  cases a <;> revert i <;> decide

/-- Witness for claim C6 at the architecture-check jump, index 1 of the
x86_64 filter. -/
theorem claim6_jumps_in_bounds_w :
    ((filterFor Arch.x86_64).get ⟨1, by decide⟩).code &&& 7 = BPF_JMP ∧
    (1 < 1 + 1 + ((filterFor Arch.x86_64).get ⟨1, by decide⟩).jt ∧
     1 + 1 + ((filterFor Arch.x86_64).get ⟨1, by decide⟩).jt < (filterFor Arch.x86_64).length ∧
     1 < 1 + 1 + ((filterFor Arch.x86_64).get ⟨1, by decide⟩).jf ∧
     1 + 1 + ((filterFor Arch.x86_64).get ⟨1, by decide⟩).jf < (filterFor Arch.x86_64).length) :=
  ⟨by decide, claim6_jumps_in_bounds Arch.x86_64 ⟨1, by decide⟩ (by decide)⟩

/-- Claim C7: the emitted byte length of each filter is an exact
multiple of the 8-byte instruction record size, with exactly 13
instructions for x86_64 and 11 for aarch64. -/
theorem claim7_sizes :
    (filterFor Arch.x86_64).length = 13 ∧
    (filterFor Arch.aarch64).length = 11 ∧
    (filterBytes Arch.x86_64).length = 13 * 8 ∧
    (filterBytes Arch.aarch64).length = 11 * 8 ∧
    8 ∣ (filterBytes Arch.x86_64).length ∧
    8 ∣ (filterBytes Arch.aarch64).length :=
  ⟨rfl, rfl, rfl, rfl, ⟨13, rfl⟩, ⟨11, rfl⟩⟩

/-- Claim C8: every encoded instruction record is exactly 8 bytes - a
2-byte little-endian operation field, a 1-byte true offset, a 1-byte
false offset and a 4-byte little-endian operand, witnessed by the decoder
recovering every in-range field - and every statement-form instruction
has both jump-offset bytes equal to zero. -/
theorem claim8_record_layout (code jt jf k : Nat) (hc : code < 2 ^ 16)
    (ht : jt < 2 ^ 8) (hf : jf < 2 ^ 8) (hk : k < 2 ^ 32) :
    (packInsn { code := code, jt := jt, jf := jf, k := k }).length = 8 ∧
    unpackInsn (packInsn { code := code, jt := jt, jf := jf, k := k }) =
      some { code := code, jt := jt, jf := jf, k := k } ∧
    (packInsn (bpf_stmt code k)).get? 2 = some 0 ∧
    (packInsn (bpf_stmt code k)).get? 3 = some 0 := by
  refine ⟨rfl, ?_, rfl, rfl⟩
  simp only [packInsn, unpackInsn, u16le, u32le, List.cons_append, List.nil_append,
    Option.some.injEq, BPFInsn.mk.injEq]
  refine ⟨?_, by omega, by omega, ?_⟩ <;> omega

/-- Witness for claim C8 at the TIOCSTI comparison jump instruction. -/
theorem claim8_record_layout_w :
    (0x15 : Nat) < 2 ^ 16 ∧ (1 : Nat) < 2 ^ 8 ∧ (0 : Nat) < 2 ^ 8 ∧
    (0x5412 : Nat) < 2 ^ 32 ∧
    ((packInsn { code := 0x15, jt := 1, jf := 0, k := 0x5412 }).length = 8 ∧
     unpackInsn (packInsn { code := 0x15, jt := 1, jf := 0, k := 0x5412 }) =
       some { code := 0x15, jt := 1, jf := 0, k := 0x5412 } ∧
     (packInsn (bpf_stmt 0x15 0x5412)).get? 2 = some 0 ∧
     (packInsn (bpf_stmt 0x15 0x5412)).get? 3 = some 0) :=
  ⟨by decide, by decide, by decide, by decide,
   claim8_record_layout 0x15 1 0 0x5412 (by decide) (by decide) (by decide) (by decide)⟩

/-- Claim C9: filter generation is a pure function of the target
architecture alone, so any two invocations produce byte-identical
output - each filter equals the fixed byte sequence below. -/
theorem claim9_deterministic :
    filterBytes Arch.x86_64 =
      [32, 0, 0, 0, 4, 0, 0, 0,
       21, 0, 1, 0, 62, 0, 0, 192,
       6, 0, 0, 0, 0, 0, 0, 128,
       32, 0, 0, 0, 0, 0, 0, 0,
       69, 0, 0, 1, 0, 0, 0, 64,
       6, 0, 0, 0, 1, 0, 5, 0,
       21, 0, 1, 0, 16, 0, 0, 0,
       6, 0, 0, 0, 0, 0, 255, 127,
       32, 0, 0, 0, 24, 0, 0, 0,
       21, 0, 2, 0, 18, 84, 0, 0,
       21, 0, 1, 0, 28, 84, 0, 0,
       6, 0, 0, 0, 0, 0, 255, 127,
       6, 0, 0, 0, 1, 0, 5, 0] ∧
    filterBytes Arch.aarch64 =
      [32, 0, 0, 0, 4, 0, 0, 0,
       21, 0, 1, 0, 183, 0, 0, 192,
       6, 0, 0, 0, 0, 0, 0, 128,
       32, 0, 0, 0, 0, 0, 0, 0,
       21, 0, 1, 0, 29, 0, 0, 0,
       6, 0, 0, 0, 0, 0, 255, 127,
       32, 0, 0, 0, 24, 0, 0, 0,
       21, 0, 2, 0, 18, 84, 0, 0,
       21, 0, 1, 0, 28, 84, 0, 0,
       6, 0, 0, 0, 0, 0, 255, 127,
       6, 0, 0, 0, 1, 0, 5, 0] :=
  ⟨rfl, rfl⟩

/-- Claim C10: for every supported architecture and every evaluation
context, the simulation terminates with one of the three terminal
actions - kill-process, allow, or deny with EPERM - never falling off the
end of the sequence, and the final instruction of each sequence is a
return. -/
theorem claim10_always_terminal (a : Arch) (ctx : SeccompData) :
    (runFilter (filterFor a) ctx = some SECCOMP_RET_KILL_PROCESS ∨
     runFilter (filterFor a) ctx = some SECCOMP_RET_ALLOW ∨
     runFilter (filterFor a) ctx = some (RET_ERRNO EPERM)) ∧
    (filterFor a).get? ((filterFor a).length - 1) =
      some (bpf_stmt (BPF_RET ||| BPF_K) (RET_ERRNO EPERM)) := by
  refine ⟨?_, by cases a <;> rfl⟩
  cases a
  case x86_64 =>
    rw [show filterFor Arch.x86_64 = generate_x86_64_filter from rfl,
        generate_x86_64_filter_spec]
    split_ifs <;> simp
  case aarch64 =>
    rw [show filterFor Arch.aarch64 = generate_aarch64_filter from rfl,
        generate_aarch64_filter_spec]
    split_ifs <;> simp

end GenerateBpf
